import Mathlib

/-!
Verification of the cursor-motion core (MoveOperations) of the x17jiri/vscode
repository. The operations of the class MoveOperations are translated from the
source file directly. External collaborators that the source consumes through
narrow interfaces (the line model, the character-boundary scanner, the tab-stop
scanner, the SingleCursorState helpers and the visible-column conversions) live
outside the sampled sources; those are modelled from the specification and each
such definition carries a doc comment saying so.

Line numbers and columns are 1-based and are modelled as unbounded integers,
matching the JavaScript number semantics of the source for the ranges involved.
-/

namespace VSCursor

/-- A (lineNumber, column) pair, translated from Position in the source. -/
structure Position where
  lineNumber : Int
  column : Int
deriving DecidableEq, Repr

/-- Position.delta with only a column delta, as used by the source
(delta with an undefined line delta keeps the line). -/
def Position.delta (p : Position) (deltaColumn : Int) : Position :=
  ⟨p.lineNumber, p.column + deltaColumn⟩

/-- Normalization affinity constants, from the model interface. -/
inductive PositionAffinity
  | Left
  | Right
  | None
  | LeftOfInjectedText
  | RightOfInjectedText
deriving DecidableEq, Repr

/-- Direction constants of the tab-stop scanner. -/
inductive Direction
  | Left
  | Right
  | Nearest
deriving DecidableEq, Repr

/-- Modelled from the spec: the read-only line-model collaborator
(ICursorSimpleModel) together with the character-boundary collaborator
(prevCharLength / nextCharLength) and the tab-stop collaborator
(atomicPosition), all consumed by MoveOperations through these functions. -/
structure Model where
  getLineCount : Int
  getLineContent : Int → String
  getLineMinColumn : Int → Int
  getLineMaxColumn : Int → Int
  getLineIndentColumn : Int → Int
  getLineFirstNonWhitespaceColumn : Int → Int
  normalizePosition : Position → PositionAffinity → Position
  prevCharLength : String → Int → Int
  nextCharLength : String → Int → Int
  atomicPosition : String → Int → Int → Direction → Int

/-- Modelled from the spec: the read-only CursorConfiguration consumed by
MoveOperations; columnFromVisibleColumn maps a tab-expanded visible column
back to a real column on a given line. -/
structure CursorConfiguration where
  tabSize : Int
  indentSize : Int
  stickyTabStops : Bool
  virtualSpace : Bool
  columnFromVisibleColumn : Model → Int → Int → Int

/-- The tag distinguishing how a selection was created. -/
inductive SelectionStartKind
  | Simple
  | Word
  | Line
deriving DecidableEq, Repr

/-- Modelled from the spec: a selection span whose selection-start (anchor)
end and position (active) end are tracked independently. -/
structure Selection where
  selectionStartLineNumber : Int
  selectionStartColumn : Int
  positionLineNumber : Int
  positionColumn : Int
deriving DecidableEq, Repr

/-- Whether the anchor end is before or equal to the active end. -/
def Selection.anchorLeq (s : Selection) : Bool :=
  decide (s.selectionStartLineNumber < s.positionLineNumber ∨
    (s.selectionStartLineNumber = s.positionLineNumber ∧
      s.selectionStartColumn ≤ s.positionColumn))

/-- Ordered start line of the selection. -/
def Selection.startLineNumber (s : Selection) : Int :=
  if s.anchorLeq then s.selectionStartLineNumber else s.positionLineNumber

/-- Ordered start column of the selection. -/
def Selection.startColumn (s : Selection) : Int :=
  if s.anchorLeq then s.selectionStartColumn else s.positionColumn

/-- Ordered end line of the selection. -/
def Selection.endLineNumber (s : Selection) : Int :=
  if s.anchorLeq then s.positionLineNumber else s.selectionStartLineNumber

/-- Ordered end column of the selection. -/
def Selection.endColumn (s : Selection) : Int :=
  if s.anchorLeq then s.positionColumn else s.selectionStartColumn

/-- A selection is empty when both ends coincide. -/
def Selection.isEmpty (s : Selection) : Bool :=
  s.selectionStartLineNumber == s.positionLineNumber &&
    s.selectionStartColumn == s.positionColumn

/-- The unit of cursor state, as described in the data model of the spec:
selection with its creation tag, virtual-space overflow of both ends, the
active position, and the visible-column hint for vertical motion. -/
structure SingleCursorState where
  selection : Selection
  selectionStartKind : SelectionStartKind
  selectionStartLeftoverVisibleColumns : Int
  position : Position
  leftoverVisibleColumns : Int
  columnHint : Option Int
deriving DecidableEq, Repr

/-- A position together with the virtual-space leftover attached to it. -/
structure VSPosition where
  lineNumber : Int
  column : Int
  leftoverVisibleColumns : Int
deriving DecidableEq, Repr

/-- Modelled from the spec: SingleCursorState.move builds the new state of a
motion; in selection mode the anchor end is kept and only the active end
moves, otherwise the selection collapses to the new position. -/
def SingleCursorState.move (s : SingleCursorState) (inSelectionMode : Bool)
    (lineNumber column leftoverVisibleColumns : Int) (columnHint : Option Int) :
    SingleCursorState :=
  if inSelectionMode then
    { selection := { s.selection with positionLineNumber := lineNumber, positionColumn := column }
      selectionStartKind := s.selectionStartKind
      selectionStartLeftoverVisibleColumns := s.selectionStartLeftoverVisibleColumns
      position := ⟨lineNumber, column⟩
      leftoverVisibleColumns := leftoverVisibleColumns
      columnHint := columnHint }
  else
    { selection := ⟨lineNumber, column, lineNumber, column⟩
      selectionStartKind := SelectionStartKind.Simple
      selectionStartLeftoverVisibleColumns := leftoverVisibleColumns
      position := ⟨lineNumber, column⟩
      leftoverVisibleColumns := leftoverVisibleColumns
      columnHint := columnHint }

/-- Modelled from the spec: hasSelection; the selection is non-empty, or in
virtual space the two ends carry different leftovers (a zero-length real
selection can still span virtual space). -/
def SingleCursorState.hasSelection (s : SingleCursorState) (virtualSpace : Bool) : Bool :=
  !s.selection.isEmpty ||
    (virtualSpace && s.selectionStartLeftoverVisibleColumns != s.leftoverVisibleColumns)

/-- Modelled from the spec: the cursor's virtual position, with the
leftover-visible-columns added as extra column offset. -/
def SingleCursorState.virtualSpacePosition (s : SingleCursorState) : Position :=
  ⟨s.position.lineNumber, s.position.column + s.leftoverVisibleColumns⟩

/-- Modelled from the spec: the leftmost selection edge together with the
leftover recorded for that edge. -/
def SingleCursorState.leftmostPosition (s : SingleCursorState) : VSPosition :=
  let a : VSPosition := ⟨s.selection.selectionStartLineNumber,
    s.selection.selectionStartColumn, s.selectionStartLeftoverVisibleColumns⟩
  let p : VSPosition := ⟨s.position.lineNumber, s.position.column, s.leftoverVisibleColumns⟩
  if a.lineNumber < p.lineNumber ∨
      (a.lineNumber = p.lineNumber ∧
        a.column + a.leftoverVisibleColumns ≤ p.column + p.leftoverVisibleColumns) then
    a
  else
    p

/-- Modelled from the spec: the rightmost selection edge together with the
leftover recorded for that edge. -/
def SingleCursorState.rightmostPosition (s : SingleCursorState) : VSPosition :=
  let a : VSPosition := ⟨s.selection.selectionStartLineNumber,
    s.selection.selectionStartColumn, s.selectionStartLeftoverVisibleColumns⟩
  let p : VSPosition := ⟨s.position.lineNumber, s.position.column, s.leftoverVisibleColumns⟩
  if a.lineNumber < p.lineNumber ∨
      (a.lineNumber = p.lineNumber ∧
        a.column + a.leftoverVisibleColumns ≤ p.column + p.leftoverVisibleColumns) then
    p
  else
    a

/-- The positional outcome of a vertical-motion computation, translated from
CursorPosition in the source. -/
structure CursorPosition where
  lineNumber : Int
  column : Int
  leftoverVisibleColumns : Int
  columnHint : Option Int
deriving DecidableEq, Repr

/-- UTF-16 code-unit length of one character. -/
def utf16Len (c : Char) : Int :=
  if c.toNat ≤ 0xFFFF then 1 else 2

/-- UTF-16 code-unit length of a whole string. -/
def utf16Length (s : String) : Int :=
  (s.data.map utf16Len).sum

/-- Constants.MAX_SAFE_SMALL_INTEGER from the uint module of the source tree. -/
def MAX_SAFE_SMALL_INTEGER : Int := 1073741824

/-- Next render tab stop after a visible column. -/
def nextRenderTabStop (visibleColumn tabSize : Int) : Int :=
  visibleColumn + tabSize - visibleColumn % tabSize

/-- Helper of visibleColumnFromColumn: walks the characters while UTF-16
units remain, expanding tabs; a trailing cut mid-character counts as one
visible column. -/
def visibleColumnsAux (tabSize : Int) : List Char → Int → Int → Int
  | [], _, acc => acc
  | c :: rest, remaining, acc =>
    if remaining ≤ 0 then acc
    else if remaining < utf16Len c then acc + 1
    else visibleColumnsAux tabSize rest (remaining - utf16Len c)
      (if c = '\t' then nextRenderTabStop acc tabSize else acc + 1)

/-- Modelled from the spec: CursorColumns.visibleColumnFromColumn, the
tab-expanded visible column of the first (column - 1) UTF-16 units of a
line. -/
def visibleColumnFromColumn (lineContent : String) (column tabSize : Int) : Int :=
  visibleColumnsAux tabSize lineContent.data (column - 1) 0

/-- Helper of columnFromVisibleColumnAlg: scans the line accumulating the
visible column before and after each character, and stops at the first
character whose after-visible-column reaches the target, returning whichever
of the two surrounding real columns is visually nearer. -/
def colFromVisAux (tabSize visibleColumn : Int) : List Char → Int → Int → Int
  | [], _, beforeColumn => beforeColumn
  | c :: rest, beforeVisible, beforeColumn =>
    let afterVisible := if c = '\t' then nextRenderTabStop beforeVisible tabSize
      else beforeVisible + 1
    let afterColumn := beforeColumn + utf16Len c
    if afterVisible ≥ visibleColumn then
      if afterVisible - visibleColumn < visibleColumn - beforeVisible then afterColumn
      else beforeColumn
    else colFromVisAux tabSize visibleColumn rest afterVisible afterColumn

/-- Modelled from the spec: CursorColumns.columnFromVisibleColumn, mapping a
tab-expanded visible column back to the visually nearest real column. -/
def columnFromVisibleColumnAlg (lineContent : String) (visibleColumn tabSize : Int) : Int :=
  if visibleColumn ≤ 0 then 1 else colFromVisAux tabSize visibleColumn lineContent.data 0 1

namespace MoveOperations

/-- Translated from MoveOperations.leftPosition. -/
def leftPosition (model : Model) (position : Position) : Position :=
  if position.column > model.getLineMinColumn position.lineNumber then
    position.delta
      (-(model.prevCharLength (model.getLineContent position.lineNumber) (position.column - 1)))
  else if position.lineNumber > 1 then
    ⟨position.lineNumber - 1, model.getLineMaxColumn (position.lineNumber - 1)⟩
  else
    position

/-- Translated from MoveOperations.leftPositionAtomicSoftTabs. -/
def leftPositionAtomicSoftTabs (model : Model) (position : Position) (tabSize : Int) : Position :=
  if position.column ≤ model.getLineIndentColumn position.lineNumber then
    let minColumn := model.getLineMinColumn position.lineNumber
    let lineContent := model.getLineContent position.lineNumber
    let newPosition := model.atomicPosition lineContent (position.column - 1) tabSize Direction.Left
    if newPosition ≠ -1 ∧ newPosition + 1 ≥ minColumn then
      ⟨position.lineNumber, newPosition + 1⟩
    else
      leftPosition model position
  else
    leftPosition model position

/-- Translated from MoveOperations.left. -/
def left (config : CursorConfiguration) (model : Model) (position : Position) : Position :=
  if config.stickyTabStops then leftPositionAtomicSoftTabs model position config.tabSize
  else leftPosition model position

/-- Translated from MoveOperations.clipRange. -/
def clipRange (value min max : Int) : Int :=
  if value < min then min
  else if value > max then max
  else value

/-- Translated from MoveOperations.clipPositionColumn. -/
def clipPositionColumn (position : Position) (model : Model) : Position :=
  ⟨position.lineNumber,
    clipRange position.column (model.getLineMinColumn position.lineNumber)
      (model.getLineMaxColumn position.lineNumber)⟩

/-- Translated from MoveOperations.moveLeftWithVirtualSpace. -/
def moveLeftWithVirtualSpace (config : CursorConfiguration) (model : Model)
    (cursor : SingleCursorState) (inSelectionMode : Bool) (noOfColumns : Int) :
    SingleCursorState :=
  if cursor.hasSelection true && !inSelectionMode then
    let p := cursor.leftmostPosition
    cursor.move inSelectionMode p.lineNumber p.column p.leftoverVisibleColumns none
  else
    let pos := cursor.virtualSpacePosition.delta (-(noOfColumns - 1))
    let clippedPos := clipPositionColumn pos model
    let leftoverVisibleColumns := max 0 (pos.column - clippedPos.column)
    let normalizedPos := model.normalizePosition clippedPos PositionAffinity.Left
    let lineNumber := normalizedPos.lineNumber
    let column := normalizedPos.column
    if leftoverVisibleColumns > 0 then
      cursor.move inSelectionMode lineNumber column (leftoverVisibleColumns - 1) none
    else if column > model.getLineMinColumn lineNumber then
      let p := left config model normalizedPos
      cursor.move inSelectionMode p.lineNumber p.column leftoverVisibleColumns none
    else
      cursor.move inSelectionMode lineNumber column leftoverVisibleColumns none

/-- Translated from MoveOperations.moveLeftWithoutVirtualSapce (name kept,
including the typo of the source). -/
def moveLeftWithoutVirtualSapce (config : CursorConfiguration) (model : Model)
    (cursor : SingleCursorState) (inSelectionMode : Bool) (noOfColumns : Int) :
    SingleCursorState :=
  if cursor.hasSelection false && !inSelectionMode then
    cursor.move inSelectionMode cursor.selection.startLineNumber cursor.selection.startColumn 0 none
  else
    let pos := cursor.position.delta (-(noOfColumns - 1))
    let normalizedPos := model.normalizePosition (clipPositionColumn pos model) PositionAffinity.Left
    let p := left config model normalizedPos
    cursor.move inSelectionMode p.lineNumber p.column 0 none

/-- Translated from MoveOperations.moveLeft. -/
def moveLeft (config : CursorConfiguration) (model : Model) (cursor : SingleCursorState)
    (inSelectionMode : Bool) (noOfColumns : Int) : SingleCursorState :=
  if config.virtualSpace then
    moveLeftWithVirtualSpace config model cursor inSelectionMode noOfColumns
  else
    moveLeftWithoutVirtualSapce config model cursor inSelectionMode noOfColumns

/-- Translated from MoveOperations.rightPosition. -/
def rightPosition (model : Model) (lineNumber column : Int) : Position :=
  if column < model.getLineMaxColumn lineNumber then
    ⟨lineNumber, column + model.nextCharLength (model.getLineContent lineNumber) (column - 1)⟩
  else if lineNumber < model.getLineCount then
    ⟨lineNumber + 1, model.getLineMinColumn (lineNumber + 1)⟩
  else
    ⟨lineNumber, column⟩

/-- Translated from MoveOperations.rightPositionAtomicSoftTabs. -/
def rightPositionAtomicSoftTabs (model : Model) (lineNumber column tabSize indentSize : Int) :
    Position :=
  if column < model.getLineIndentColumn lineNumber then
    let lineContent := model.getLineContent lineNumber
    let newPosition := model.atomicPosition lineContent (column - 1) tabSize Direction.Right
    if newPosition ≠ -1 then
      ⟨lineNumber, newPosition + 1⟩
    else
      rightPosition model lineNumber column
  else
    rightPosition model lineNumber column

/-- Translated from MoveOperations.right. -/
def right (config : CursorConfiguration) (model : Model) (position : Position) : Position :=
  if config.stickyTabStops then
    rightPositionAtomicSoftTabs model position.lineNumber position.column config.tabSize
      config.indentSize
  else
    rightPosition model position.lineNumber position.column

/-- Translated from MoveOperations.moveRightWithVirtualSpace. -/
def moveRightWithVirtualSpace (config : CursorConfiguration) (model : Model)
    (cursor : SingleCursorState) (inSelectionMode : Bool) (noOfColumns : Int) :
    SingleCursorState :=
  if cursor.hasSelection true && !inSelectionMode then
    let r := cursor.rightmostPosition
    cursor.move inSelectionMode r.lineNumber r.column r.leftoverVisibleColumns none
  else
    let pos := cursor.virtualSpacePosition.delta (noOfColumns - 1)
    let clippedPos := clipPositionColumn pos model
    let normalizedPos := model.normalizePosition clippedPos PositionAffinity.Right
    if normalizedPos.column < model.getLineMaxColumn normalizedPos.lineNumber then
      let r := right config model normalizedPos
      cursor.move inSelectionMode r.lineNumber r.column 0 none
    else
      cursor.move inSelectionMode normalizedPos.lineNumber normalizedPos.column
        (max 1 (pos.column - clippedPos.column + 1)) none

/-- Translated from MoveOperations.moveRightWithoutVirtualSpace. -/
def moveRightWithoutVirtualSpace (config : CursorConfiguration) (model : Model)
    (cursor : SingleCursorState) (inSelectionMode : Bool) (noOfColumns : Int) :
    SingleCursorState :=
  if cursor.hasSelection false && !inSelectionMode then
    cursor.move inSelectionMode cursor.selection.endLineNumber cursor.selection.endColumn 0 none
  else
    let pos := cursor.position.delta (noOfColumns - 1)
    let normalizedPos := model.normalizePosition (clipPositionColumn pos model) PositionAffinity.Right
    let r := right config model normalizedPos
    cursor.move inSelectionMode r.lineNumber r.column 0 none

/-- Translated from MoveOperations.moveRight. -/
def moveRight (config : CursorConfiguration) (model : Model) (cursor : SingleCursorState)
    (inSelectionMode : Bool) (noOfColumns : Int) : SingleCursorState :=
  if config.virtualSpace then
    moveRightWithVirtualSpace config model cursor inSelectionMode noOfColumns
  else
    moveRightWithoutVirtualSpace config model cursor inSelectionMode noOfColumns

/-- Shared tail of MoveOperations.vertical: optional re-normalization of the
resulting position and, when a column hint is tracked, the recomputation of
the leftover as the difference between the tracked visible column and the
visible column of the final real position. -/
def verticalTail (config : CursorConfiguration) (model : Model)
    (currentVisibleColumn lineNumber column leftoverVisibleColumns : Int)
    (columnHint : Option Int) (normalizationAffinity : Option PositionAffinity) :
    CursorPosition :=
  let p : Position :=
    match normalizationAffinity with
    | some aff => model.normalizePosition ⟨lineNumber, column⟩ aff
    | none => ⟨lineNumber, column⟩
  let leftover : Int :=
    match columnHint with
    | some _ =>
        currentVisibleColumn -
          visibleColumnFromColumn (model.getLineContent p.lineNumber) p.column config.tabSize
    | none => leftoverVisibleColumns
  ⟨p.lineNumber, p.column, leftover, columnHint⟩

/-- Translated from MoveOperations.vertical. Note that the source assigns
lineNumber = newLineNumber before computing wasOnFirstPosition,
wasOnLastPosition and wasAtEdgePosition; the translation keeps that order
(ln0 is the already-reassigned lineNumber). -/
def vertical (config : CursorConfiguration) (model : Model)
    (lineNumber column leftoverVisibleColumns : Int) (columnHint : Option Int)
    (newLineNumber : Int) (allowMoveOnEdgeLine : Bool)
    (normalizationAffinity : Option PositionAffinity) : CursorPosition :=
  let currentVisibleColumn : Int :=
    match columnHint with
    | some h => h
    | none =>
        visibleColumnFromColumn (model.getLineContent lineNumber) column config.tabSize +
          leftoverVisibleColumns
  let columnHint1 : Option Int :=
    match columnHint with
    | some h => some h
    | none => some currentVisibleColumn
  let lineCount := model.getLineCount
  if config.virtualSpace then
    let ln1 := max 1 (min lineCount newLineNumber)
    let col1 := config.columnFromVisibleColumn model ln1 currentVisibleColumn
    verticalTail config model currentVisibleColumn ln1 col1 leftoverVisibleColumns columnHint1
      normalizationAffinity
  else
    let ln0 := newLineNumber
    let wasOnFirstPosition : Bool := ln0 == 1 && column == 1
    let wasOnLastPosition : Bool := ln0 == lineCount && column == model.getLineMaxColumn ln0
    let wasAtEdgePosition : Bool :=
      if newLineNumber < ln0 then wasOnFirstPosition else wasOnLastPosition
    let pr : Int × Int :=
      if ln0 < 1 then
        (1, if allowMoveOnEdgeLine then model.getLineMinColumn 1
            else min (model.getLineMaxColumn 1) column)
      else if ln0 > lineCount then
        (lineCount, if allowMoveOnEdgeLine then model.getLineMaxColumn lineCount
            else min (model.getLineMaxColumn lineCount) column)
      else
        (ln0, config.columnFromVisibleColumn model ln0 currentVisibleColumn)
    let hl : Option Int × Int :=
      if wasAtEdgePosition then (none, 0) else (columnHint1, leftoverVisibleColumns)
    verticalTail config model currentVisibleColumn pr.1 pr.2 hl.2 hl.1 normalizationAffinity

/-- Translated from MoveOperations.down. -/
def down (config : CursorConfiguration) (model : Model)
    (lineNumber column leftoverVisibleColumns : Int) (columnHint : Option Int)
    (count : Int) (allowMoveOnLastLine : Bool) : CursorPosition :=
  vertical config model lineNumber column leftoverVisibleColumns columnHint
    (lineNumber + count) allowMoveOnLastLine (some PositionAffinity.RightOfInjectedText)

/-- The starting point of moveDown: the rightmost selection edge when leaving
an active selection without extending it, the cursor's own position
otherwise. -/
def moveDownStart (config : CursorConfiguration) (cursor : SingleCursorState)
    (inSelectionMode : Bool) : VSPosition × Option Int :=
  if cursor.hasSelection config.virtualSpace && !inSelectionMode then
    (cursor.rightmostPosition, none)
  else
    (⟨cursor.position.lineNumber, cursor.position.column, cursor.leftoverVisibleColumns⟩,
      cursor.columnHint)

/-- One attempt of the moveDown retry loop, starting i lines below the base
line. -/
def moveDownAttempt (config : CursorConfiguration) (model : Model)
    (lineNumber column leftoverVisibleColumns : Int) (columnHint : Option Int)
    (linesCount : Int) (i : Nat) : CursorPosition :=
  down config model (lineNumber + (i : Int)) column leftoverVisibleColumns columnHint
    linesCount true

/-- The stopping test of the moveDown retry loop: normalizing the attempt's
result with affinity None reports a line strictly past the starting line. -/
def moveDownStops (config : CursorConfiguration) (model : Model)
    (lineNumber column leftoverVisibleColumns : Int) (columnHint : Option Int)
    (linesCount : Int) (i : Nat) : Bool :=
  let r := moveDownAttempt config model lineNumber column leftoverVisibleColumns columnHint
    linesCount i
  decide ((model.normalizePosition ⟨r.lineNumber, r.column⟩ PositionAffinity.None).lineNumber >
    lineNumber)

/-- Translated from the do-while retry loop of MoveOperations.moveDown. The
fuel argument is 10 - i at every call, so the structural recursion follows
exactly the source's guard (i++ < 10 && lineNumber + i < lineCount). -/
def moveDownLoopAux (config : CursorConfiguration) (model : Model)
    (lineNumber column leftoverVisibleColumns : Int) (columnHint : Option Int)
    (linesCount : Int) : Nat → Nat → CursorPosition
  | 0, i =>
      moveDownAttempt config model lineNumber column leftoverVisibleColumns columnHint
        linesCount i
  | fuel + 1, i =>
      let r := moveDownAttempt config model lineNumber column leftoverVisibleColumns columnHint
        linesCount i
      if moveDownStops config model lineNumber column leftoverVisibleColumns columnHint
          linesCount i then r
      else if i < 10 ∧ lineNumber + (i : Int) + 1 < model.getLineCount then
        moveDownLoopAux config model lineNumber column leftoverVisibleColumns columnHint
          linesCount fuel (i + 1)
      else r

/-- Translated from MoveOperations.moveDown. -/
def moveDown (config : CursorConfiguration) (model : Model) (cursor : SingleCursorState)
    (inSelectionMode : Bool) (linesCount : Int) : SingleCursorState :=
  let s := moveDownStart config cursor inSelectionMode
  let r := moveDownLoopAux config model s.1.lineNumber s.1.column s.1.leftoverVisibleColumns
    s.2 linesCount 10 0
  cursor.move inSelectionMode r.lineNumber r.column r.leftoverVisibleColumns r.columnHint

/-- Translated from MoveOperations.translateDown. -/
def translateDown (config : CursorConfiguration) (model : Model)
    (cursor : SingleCursorState) : SingleCursorState :=
  let columnHint := cursor.columnHint
  let selection := cursor.selection
  let selectionStart := down config model selection.selectionStartLineNumber
    selection.selectionStartColumn cursor.selectionStartLeftoverVisibleColumns columnHint 1 false
  let position := down config model selection.positionLineNumber selection.positionColumn
    cursor.leftoverVisibleColumns columnHint 1 false
  { selection := ⟨selectionStart.lineNumber, selectionStart.column,
      selectionStart.lineNumber, selectionStart.column⟩
    selectionStartKind := SelectionStartKind.Simple
    selectionStartLeftoverVisibleColumns := selectionStart.leftoverVisibleColumns
    position := ⟨position.lineNumber, position.column⟩
    leftoverVisibleColumns := position.leftoverVisibleColumns
    columnHint := columnHint }

/-- Translated from MoveOperations.up. -/
def up (config : CursorConfiguration) (model : Model)
    (lineNumber column leftoverVisibleColumns : Int) (columnHint : Option Int)
    (count : Int) (allowMoveOnFirstLine : Bool) : CursorPosition :=
  vertical config model lineNumber column leftoverVisibleColumns columnHint
    (lineNumber - count) allowMoveOnFirstLine (some PositionAffinity.LeftOfInjectedText)

/-- Translated from MoveOperations.moveUp. -/
def moveUp (config : CursorConfiguration) (model : Model) (cursor : SingleCursorState)
    (inSelectionMode : Bool) (linesCount : Int) : SingleCursorState :=
  if cursor.hasSelection config.virtualSpace && !inSelectionMode then
    let t := cursor.leftmostPosition
    let r := up config model t.lineNumber t.column t.leftoverVisibleColumns none linesCount true
    cursor.move inSelectionMode r.lineNumber r.column r.leftoverVisibleColumns r.columnHint
  else
    let r := up config model cursor.position.lineNumber cursor.position.column
      cursor.leftoverVisibleColumns cursor.columnHint linesCount true
    cursor.move inSelectionMode r.lineNumber r.column r.leftoverVisibleColumns r.columnHint

/-- Translated from MoveOperations.translateUp. -/
def translateUp (config : CursorConfiguration) (model : Model)
    (cursor : SingleCursorState) : SingleCursorState :=
  let columnHint := cursor.columnHint
  let selection := cursor.selection
  let selectionStart := up config model selection.selectionStartLineNumber
    selection.selectionStartColumn cursor.selectionStartLeftoverVisibleColumns columnHint 1 false
  let position := up config model selection.positionLineNumber selection.positionColumn
    cursor.leftoverVisibleColumns columnHint 1 false
  { selection := ⟨selectionStart.lineNumber, selectionStart.column,
      selectionStart.lineNumber, selectionStart.column⟩
    selectionStartKind := SelectionStartKind.Simple
    selectionStartLeftoverVisibleColumns := selectionStart.leftoverVisibleColumns
    position := ⟨position.lineNumber, position.column⟩
    leftoverVisibleColumns := position.leftoverVisibleColumns
    columnHint := columnHint }

/-- Translated from MoveOperations._isBlankLine: a line is blank when its
first-non-whitespace column is reported as 0. -/
def isBlankLine (model : Model) (lineNumber : Int) : Bool :=
  model.getLineFirstNonWhitespaceColumn lineNumber == 0

/-- First while loop of moveToPrevBlankLine: while the line is blank and above
line 1, step up. The fuel is (lineNumber - 1).toNat at the entry point, which
the guard lineNumber > 1 can never exhaust early. -/
def skipBlankUpAux (model : Model) : Nat → Int → Int
  | 0, lineNumber => lineNumber
  | fuel + 1, lineNumber =>
      if lineNumber > 1 ∧ isBlankLine model lineNumber then
        skipBlankUpAux model fuel (lineNumber - 1)
      else lineNumber

/-- While the current line is blank, move up to the previous non-blank line. -/
def skipBlankUp (model : Model) (lineNumber : Int) : Int :=
  skipBlankUpAux model (lineNumber - 1).toNat lineNumber

/-- Second while loop of moveToPrevBlankLine: while the line is non-blank and
above line 1, step up. -/
def skipNonBlankUpAux (model : Model) : Nat → Int → Int
  | 0, lineNumber => lineNumber
  | fuel + 1, lineNumber =>
      if lineNumber > 1 ∧ ¬isBlankLine model lineNumber then
        skipNonBlankUpAux model fuel (lineNumber - 1)
      else lineNumber

/-- Find the previous blank line. -/
def skipNonBlankUp (model : Model) (lineNumber : Int) : Int :=
  skipNonBlankUpAux model (lineNumber - 1).toNat lineNumber

/-- First while loop of moveToNextBlankLine: while the line is blank and below
the last line, step down. -/
def skipBlankDownAux (model : Model) : Nat → Int → Int
  | 0, lineNumber => lineNumber
  | fuel + 1, lineNumber =>
      if lineNumber < model.getLineCount ∧ isBlankLine model lineNumber then
        skipBlankDownAux model fuel (lineNumber + 1)
      else lineNumber

/-- While the current line is blank, move down to the next non-blank line. -/
def skipBlankDown (model : Model) (lineNumber : Int) : Int :=
  skipBlankDownAux model (model.getLineCount - lineNumber).toNat lineNumber

/-- Second while loop of moveToNextBlankLine: while the line is non-blank and
below the last line, step down. -/
def skipNonBlankDownAux (model : Model) : Nat → Int → Int
  | 0, lineNumber => lineNumber
  | fuel + 1, lineNumber =>
      if lineNumber < model.getLineCount ∧ ¬isBlankLine model lineNumber then
        skipNonBlankDownAux model fuel (lineNumber + 1)
      else lineNumber

/-- Find the next blank line. -/
def skipNonBlankDown (model : Model) (lineNumber : Int) : Int :=
  skipNonBlankDownAux model (model.getLineCount - lineNumber).toNat lineNumber

/-- Translated from MoveOperations.moveToPrevBlankLine. -/
def moveToPrevBlankLine (config : CursorConfiguration) (model : Model)
    (cursor : SingleCursorState) (inSelectionMode : Bool) : SingleCursorState :=
  let ln1 := skipBlankUp model cursor.position.lineNumber
  let ln2 := skipNonBlankUp model ln1
  cursor.move inSelectionMode ln2 (model.getLineMinColumn ln2) 0 none

/-- Translated from MoveOperations.moveToNextBlankLine. -/
def moveToNextBlankLine (config : CursorConfiguration) (model : Model)
    (cursor : SingleCursorState) (inSelectionMode : Bool) : SingleCursorState :=
  let ln1 := skipBlankDown model cursor.position.lineNumber
  let ln2 := skipNonBlankDown model ln1
  cursor.move inSelectionMode ln2 (model.getLineMinColumn ln2) 0 none

/-- Translated from MoveOperations.moveToBeginningOfLine; the JavaScript
expression (getLineFirstNonWhitespaceColumn || minColumn) yields minColumn
exactly when the first-non-whitespace column is 0. -/
def moveToBeginningOfLine (config : CursorConfiguration) (model : Model)
    (cursor : SingleCursorState) (inSelectionMode : Bool) : SingleCursorState :=
  let lineNumber := cursor.position.lineNumber
  let minColumn := model.getLineMinColumn lineNumber
  let fnbc := model.getLineFirstNonWhitespaceColumn lineNumber
  let firstNonBlankColumn := if fnbc = 0 then minColumn else fnbc
  let column :=
    if cursor.position.column = firstNonBlankColumn then minColumn else firstNonBlankColumn
  cursor.move inSelectionMode lineNumber column 0 none

/-- Translated from MoveOperations.moveToEndOfLine. -/
def moveToEndOfLine (config : CursorConfiguration) (model : Model)
    (cursor : SingleCursorState) (inSelectionMode : Bool) (sticky : Bool) : SingleCursorState :=
  let lineNumber := cursor.position.lineNumber
  let maxColumn := model.getLineMaxColumn lineNumber
  cursor.move inSelectionMode lineNumber maxColumn
    (if sticky then MAX_SAFE_SMALL_INTEGER - maxColumn else 0) none

/-- Translated from MoveOperations.moveToBeginningOfBuffer. -/
def moveToBeginningOfBuffer (config : CursorConfiguration) (model : Model)
    (cursor : SingleCursorState) (inSelectionMode : Bool) : SingleCursorState :=
  cursor.move inSelectionMode 1 1 0 none

/-- Translated from MoveOperations.moveToEndOfBuffer. -/
def moveToEndOfBuffer (config : CursorConfiguration) (model : Model)
    (cursor : SingleCursorState) (inSelectionMode : Bool) : SingleCursorState :=
  let lastLineNumber := model.getLineCount
  let lastColumn := model.getLineMaxColumn lastLineNumber
  cursor.move inSelectionMode lastLineNumber lastColumn 0 none

end MoveOperations

/-- Column of the first non-whitespace character of a line (0 when the line
is empty or all whitespace), counting UTF-16 units. -/
def firstNonWsAux : List Char → Int → Int
  | [], _ => 0
  | c :: rest, idx =>
      if c == ' ' || c == '\t' then firstNonWsAux rest (idx + 1) else idx + 1

/-- Modelled from the spec: getLineFirstNonWhitespaceColumn, returning 0 for
blank or empty lines. -/
def firstNonWhitespaceColumn (s : String) : Int :=
  firstNonWsAux s.data 0

/-- Modelled from the spec: nextCharLength, the number of UTF-16 units of the
character starting at the given unit offset (0 past the end). -/
def nextCharLenAux : List Char → Int → Int
  | [], _ => 0
  | c :: rest, off =>
      if off ≤ 0 then utf16Len c else nextCharLenAux rest (off - utf16Len c)

/-- Modelled from the spec: prevCharLength, the number of UTF-16 units of the
character ending at the given unit offset (0 at or before the start). -/
def prevCharLenAux : List Char → Int → Int
  | [], _ => 0
  | c :: rest, off =>
      if off ≤ utf16Len c then (if off ≤ 0 then 0 else utf16Len c)
      else prevCharLenAux rest (off - utf16Len c)

/-- A concrete line model built from a list of line contents: min column 1,
max column is the UTF-16 length plus 1, identity normalization and a tab-stop
scanner that reports no atomic stop. -/
def mkModel (lines : List String) : Model where
  getLineCount := lines.length
  getLineContent := fun l => lines.getD (l - 1).toNat ""
  getLineMinColumn := fun _ => 1
  getLineMaxColumn := fun l => utf16Length (lines.getD (l - 1).toNat "") + 1
  getLineIndentColumn := fun l =>
    let s := lines.getD (l - 1).toNat ""
    let f := firstNonWhitespaceColumn s
    if f = 0 then utf16Length s + 1 else f
  getLineFirstNonWhitespaceColumn := fun l => firstNonWhitespaceColumn (lines.getD (l - 1).toNat "")
  normalizePosition := fun p _ => p
  prevCharLength := fun s off => prevCharLenAux s.data off
  nextCharLength := fun s off => nextCharLenAux s.data off
  atomicPosition := fun _ _ _ _ => -1

/-- Modelled from the spec: the configuration's columnFromVisibleColumn,
mapping a visible column to the nearest real column and clamping it into the
line's valid column range. -/
def clampedColumnFromVisibleColumn (tabSize : Int) (model : Model)
    (lineNumber visibleColumn : Int) : Int :=
  let result := columnFromVisibleColumnAlg (model.getLineContent lineNumber) visibleColumn tabSize
  let minColumn := model.getLineMinColumn lineNumber
  if result < minColumn then minColumn
  else
    let maxColumn := model.getLineMaxColumn lineNumber
    if result > maxColumn then maxColumn else result

/-- A concrete configuration with the given flags and tab size. -/
def mkConfig (virtualSpace stickyTabStops : Bool) (tabSize : Int) : CursorConfiguration where
  tabSize := tabSize
  indentSize := tabSize
  stickyTabStops := stickyTabStops
  virtualSpace := virtualSpace
  columnFromVisibleColumn := clampedColumnFromVisibleColumn tabSize

/-- A cursor with an empty selection collapsed at the given position. -/
def mkCursor (lineNumber column : Int) : SingleCursorState :=
  ⟨⟨lineNumber, column, lineNumber, column⟩, SelectionStartKind.Simple, 0,
    ⟨lineNumber, column⟩, 0, none⟩

/-- Configuration with virtual space and sticky tab stops both off. -/
def cfg0 : CursorConfiguration := mkConfig false false 4

/-- Configuration with virtual space on. -/
def cfgVS : CursorConfiguration := mkConfig true false 4

/-- One-line model with content hello. -/
def modelHello : Model := mkModel ["hello"]

/-- One-line model with content ab. -/
def modelAb : Model := mkModel ["ab"]

/-- One-line model with content a. -/
def modelA : Model := mkModel ["a"]

/-- Two-line model whose second line is much shorter than the first. -/
def modelShort : Model := mkModel ["aaaaaaaa", "a"]

/-- Two-line model used for the round-trip witness. -/
def modelAbC : Model := mkModel ["ab", "c"]

/-- Five-line model of the blank-line navigation example of the spec. -/
def modelBlank : Model := mkModel ["a", "", "b", "c", ""]

/-- Cursor owning the selection (1,1)-(1,5) with the active end at (1,5). -/
def cursorSel15 : SingleCursorState :=
  ⟨⟨1, 1, 1, 5⟩, SelectionStartKind.Simple, 0, ⟨1, 5⟩, 0, none⟩

/-- Cursor resting 5 virtual columns past the end of a 2-character line. -/
def cursorVirtual : SingleCursorState :=
  ⟨⟨1, 3, 1, 3⟩, SelectionStartKind.Simple, 5, ⟨1, 3⟩, 5, none⟩

/-- Model with one indented line and a tab-stop scanner reporting an atomic
stop at offset 0. -/
def modelIndent : Model :=
  { mkModel ["    x"] with atomicPosition := fun _ _ _ _ => 0 }

/-- The candidate position of the non-collapsing branch of leftward motion in
virtual space: the virtual position shifted left by noOfColumns - 1, before
clipping. -/
def leftPreClip (cursor : SingleCursorState) (noOfColumns : Int) : Position :=
  cursor.virtualSpacePosition.delta (-(noOfColumns - 1))

@[simp]
lemma move_position (s : SingleCursorState) (inSel : Bool) (l c lv : Int) (h : Option Int) :
    (s.move inSel l c lv h).position = ⟨l, c⟩ := by
  unfold SingleCursorState.move
  split <;> rfl

@[simp]
lemma move_leftover (s : SingleCursorState) (inSel : Bool) (l c lv : Int) (h : Option Int) :
    (s.move inSel l c lv h).leftoverVisibleColumns = lv := by
  unfold SingleCursorState.move
  split <;> rfl

@[simp]
lemma move_columnHint (s : SingleCursorState) (inSel : Bool) (l c lv : Int) (h : Option Int) :
    (s.move inSel l c lv h).columnHint = h := by
  unfold SingleCursorState.move
  split <;> rfl

lemma move_selStartLeftover (s : SingleCursorState) (inSel : Bool) (l c lv : Int)
    (h : Option Int) :
    (s.move inSel l c lv h).selectionStartLeftoverVisibleColumns =
      if inSel then s.selectionStartLeftoverVisibleColumns else lv := by
  unfold SingleCursorState.move
  split <;> simp_all

lemma utf16Len_pos (c : Char) : 1 ≤ utf16Len c := by
  unfold utf16Len
  split <;> omega

lemma utf16Length_nonneg (s : String) : 0 ≤ utf16Length s := by
  unfold utf16Length
  refine List.sum_nonneg ?_
  intro x hx
  obtain ⟨c, _, rfl⟩ := List.mem_map.mp hx
  have := utf16Len_pos c
  omega

lemma mkModel_minmax (L : List String) :
    ∀ l, (mkModel L).getLineMinColumn l ≤ (mkModel L).getLineMaxColumn l := by
  intro l
  show (1 : Int) ≤ utf16Length (L.getD (l - 1).toNat "") + 1
  have := utf16Length_nonneg (L.getD (l - 1).toNat "")
  omega

/-- C1: with a non-empty selection, virtual space off and extendSelection
false, moveLeft collapses to the selection's ordered start and moveRight to
its ordered end; both reset the leftover to 0 and clear the column hint. -/
theorem moveLeftRight_collapse (cfg : CursorConfiguration) (m : Model)
    (cursor : SingleCursorState) (n : Int)
    (hvs : cfg.virtualSpace = false)
    (hsel : cursor.selection.isEmpty = false) :
    ((MoveOperations.moveLeft cfg m cursor false n).position =
        ⟨cursor.selection.startLineNumber, cursor.selection.startColumn⟩ ∧
      (MoveOperations.moveLeft cfg m cursor false n).leftoverVisibleColumns = 0 ∧
      (MoveOperations.moveLeft cfg m cursor false n).columnHint = none) ∧
    ((MoveOperations.moveRight cfg m cursor false n).position =
        ⟨cursor.selection.endLineNumber, cursor.selection.endColumn⟩ ∧
      (MoveOperations.moveRight cfg m cursor false n).leftoverVisibleColumns = 0 ∧
      (MoveOperations.moveRight cfg m cursor false n).columnHint = none) := by
  unfold MoveOperations.moveLeft MoveOperations.moveRight
    MoveOperations.moveLeftWithoutVirtualSapce MoveOperations.moveRightWithoutVirtualSpace
  simp [hvs, SingleCursorState.hasSelection, hsel]

/-- Witness for C1 at the concrete selection (1,1)-(1,5) of the spec
example: moveLeft collapses to (1,1) and moveRight to (1,5). -/
theorem moveLeftRight_collapse_witness :
    ((MoveOperations.moveLeft cfg0 modelHello cursorSel15 false 1).position =
        ⟨cursorSel15.selection.startLineNumber, cursorSel15.selection.startColumn⟩ ∧
      (MoveOperations.moveLeft cfg0 modelHello cursorSel15 false 1).leftoverVisibleColumns = 0 ∧
      (MoveOperations.moveLeft cfg0 modelHello cursorSel15 false 1).columnHint = none) ∧
    ((MoveOperations.moveRight cfg0 modelHello cursorSel15 false 1).position =
        ⟨cursorSel15.selection.endLineNumber, cursorSel15.selection.endColumn⟩ ∧
      (MoveOperations.moveRight cfg0 modelHello cursorSel15 false 1).leftoverVisibleColumns = 0 ∧
      (MoveOperations.moveRight cfg0 modelHello cursorSel15 false 1).columnHint = none) ∧
    (MoveOperations.moveLeft cfg0 modelHello cursorSel15 false 1).position = ⟨1, 1⟩ ∧
    (MoveOperations.moveRight cfg0 modelHello cursorSel15 false 1).position = ⟨1, 5⟩ := by
  have h := moveLeftRight_collapse cfg0 modelHello cursorSel15 1 rfl (by decide)
  exact ⟨h.1, h.2, by decide, by decide⟩

/-- C10: every horizontal, line-boundary, buffer-boundary and blank-line
motion returns a state whose columnHint is null, for every input. -/
theorem nonvertical_columnHint_none (cfg : CursorConfiguration) (m : Model)
    (cursor : SingleCursorState) (inSel sticky : Bool) (n : Int) :
    (MoveOperations.moveLeft cfg m cursor inSel n).columnHint = none ∧
    (MoveOperations.moveRight cfg m cursor inSel n).columnHint = none ∧
    (MoveOperations.moveToBeginningOfLine cfg m cursor inSel).columnHint = none ∧
    (MoveOperations.moveToEndOfLine cfg m cursor inSel sticky).columnHint = none ∧
    (MoveOperations.moveToBeginningOfBuffer cfg m cursor inSel).columnHint = none ∧
    (MoveOperations.moveToEndOfBuffer cfg m cursor inSel).columnHint = none ∧
    (MoveOperations.moveToPrevBlankLine cfg m cursor inSel).columnHint = none ∧
    (MoveOperations.moveToNextBlankLine cfg m cursor inSel).columnHint = none := by
  unfold MoveOperations.moveLeft MoveOperations.moveRight
    MoveOperations.moveLeftWithVirtualSpace MoveOperations.moveLeftWithoutVirtualSapce
    MoveOperations.moveRightWithVirtualSpace MoveOperations.moveRightWithoutVirtualSpace
    MoveOperations.moveToBeginningOfLine MoveOperations.moveToEndOfLine
    MoveOperations.moveToBeginningOfBuffer MoveOperations.moveToEndOfBuffer
    MoveOperations.moveToPrevBlankLine MoveOperations.moveToNextBlankLine
  refine ⟨?_, ?_, ?_, ?_, ?_, ?_, ?_, ?_⟩ <;> dsimp only [] <;> (repeat' split) <;> simp

/-- C5: the plain single-character step moves by exactly the number of UTF-16
units reported by the character-length collaborator; at a line boundary it
moves to the previous line's maximum column (left) or the next line's minimum
column (right); at the buffer start or end it returns the position
unchanged. -/
theorem singleStep_boundaries (m : Model) (p : Position) (ln col : Int) :
    (m.getLineMinColumn p.lineNumber < p.column →
      MoveOperations.leftPosition m p =
        ⟨p.lineNumber,
          p.column - m.prevCharLength (m.getLineContent p.lineNumber) (p.column - 1)⟩) ∧
    (p.column ≤ m.getLineMinColumn p.lineNumber → 1 < p.lineNumber →
      MoveOperations.leftPosition m p =
        ⟨p.lineNumber - 1, m.getLineMaxColumn (p.lineNumber - 1)⟩) ∧
    (p.column ≤ m.getLineMinColumn p.lineNumber → p.lineNumber ≤ 1 →
      MoveOperations.leftPosition m p = p) ∧
    (col < m.getLineMaxColumn ln →
      MoveOperations.rightPosition m ln col =
        ⟨ln, col + m.nextCharLength (m.getLineContent ln) (col - 1)⟩) ∧
    (m.getLineMaxColumn ln ≤ col → ln < m.getLineCount →
      MoveOperations.rightPosition m ln col = ⟨ln + 1, m.getLineMinColumn (ln + 1)⟩) ∧
    (m.getLineMaxColumn ln ≤ col → m.getLineCount ≤ ln →
      MoveOperations.rightPosition m ln col = ⟨ln, col⟩) := by
  unfold MoveOperations.leftPosition MoveOperations.rightPosition Position.delta
  refine ⟨?_, ?_, ?_, ?_, ?_, ?_⟩ <;> intro h1 <;> try intro h2
  all_goals split_ifs <;> first
    | rfl
    | (exfalso; omega)
    | (congr 1 <;> omega)

/-- Witness for C5: on the one-line model ab, stepping left from column 2
lands on column 1 and stepping right from column 2 lands on column 3. -/
theorem singleStep_boundaries_witness :
    MoveOperations.leftPosition modelAb ⟨1, 2⟩ =
      ⟨1, 2 - modelAb.prevCharLength (modelAb.getLineContent 1) 1⟩ ∧
    MoveOperations.rightPosition modelAb 1 2 =
      ⟨1, 2 + modelAb.nextCharLength (modelAb.getLineContent 1) 1⟩ ∧
    MoveOperations.leftPosition modelAb ⟨1, 2⟩ = ⟨1, 1⟩ := by
  refine ⟨?_, ?_, by decide⟩
  · exact (singleStep_boundaries modelAb ⟨1, 2⟩ 1 2).1 (by decide)
  · exact (singleStep_boundaries modelAb ⟨1, 2⟩ 1 2).2.2.2.1 (by decide)

/-- C8: the atomic soft-tab step is taken only when stickyTabStops is set and
the column lies within the indentation region; it delegates to the scanner's
atomicPosition, and falls back to the plain step when the scanner returns the
sentinel -1 or, leftward, a stop before the line's minimum column. -/
theorem atomicStep_fallback (cfg : CursorConfiguration) (m : Model) (p : Position)
    (ln col ts isz : Int) :
    (cfg.stickyTabStops = false →
      MoveOperations.left cfg m p = MoveOperations.leftPosition m p ∧
      MoveOperations.right cfg m ⟨ln, col⟩ = MoveOperations.rightPosition m ln col) ∧
    (m.getLineIndentColumn p.lineNumber < p.column →
      MoveOperations.leftPositionAtomicSoftTabs m p ts = MoveOperations.leftPosition m p) ∧
    (m.getLineIndentColumn ln ≤ col →
      MoveOperations.rightPositionAtomicSoftTabs m ln col ts isz =
        MoveOperations.rightPosition m ln col) ∧
    (m.atomicPosition (m.getLineContent p.lineNumber) (p.column - 1) ts Direction.Left = -1 →
      MoveOperations.leftPositionAtomicSoftTabs m p ts = MoveOperations.leftPosition m p) ∧
    (m.atomicPosition (m.getLineContent ln) (col - 1) ts Direction.Right = -1 →
      MoveOperations.rightPositionAtomicSoftTabs m ln col ts isz =
        MoveOperations.rightPosition m ln col) ∧
    (m.atomicPosition (m.getLineContent p.lineNumber) (p.column - 1) ts Direction.Left + 1 <
        m.getLineMinColumn p.lineNumber →
      MoveOperations.leftPositionAtomicSoftTabs m p ts = MoveOperations.leftPosition m p) ∧
    (p.column ≤ m.getLineIndentColumn p.lineNumber →
      m.atomicPosition (m.getLineContent p.lineNumber) (p.column - 1) ts Direction.Left ≠ -1 →
      m.getLineMinColumn p.lineNumber ≤
        m.atomicPosition (m.getLineContent p.lineNumber) (p.column - 1) ts Direction.Left + 1 →
      MoveOperations.leftPositionAtomicSoftTabs m p ts =
        ⟨p.lineNumber,
          m.atomicPosition (m.getLineContent p.lineNumber) (p.column - 1) ts Direction.Left + 1⟩) ∧
    (col < m.getLineIndentColumn ln →
      m.atomicPosition (m.getLineContent ln) (col - 1) ts Direction.Right ≠ -1 →
      MoveOperations.rightPositionAtomicSoftTabs m ln col ts isz =
        ⟨ln, m.atomicPosition (m.getLineContent ln) (col - 1) ts Direction.Right + 1⟩) := by
  unfold MoveOperations.left MoveOperations.right MoveOperations.leftPositionAtomicSoftTabs
    MoveOperations.rightPositionAtomicSoftTabs
  dsimp only []
  refine ⟨?_, ?_, ?_, ?_, ?_, ?_, ?_, ?_⟩
  · intro h
    simp [h]
  · intro h
    split_ifs <;> first | rfl | (exfalso; omega)
  · intro h
    split_ifs <;> first | rfl | (exfalso; omega)
  · intro h
    rw [h]
    split_ifs <;> first | rfl | (exfalso; omega)
  · intro h
    rw [h]
    split_ifs <;> first | rfl | (exfalso; omega)
  · intro h
    split_ifs <;> first | rfl | (exfalso; omega)
  · intro h1 h2 h3
    split_ifs <;> first | rfl | (exfalso; omega) | (exfalso; tauto)
  · intro h1 h2
    split_ifs <;> first | rfl | (exfalso; omega) | (exfalso; tauto)

/-- Witness for C8: on a model whose scanner reports no stop the atomic step
falls back to the plain step, and on an indented line with a scanner stop at
offset 0 the leftward atomic step lands on column 1. -/
theorem atomicStep_fallback_witness :
    MoveOperations.leftPositionAtomicSoftTabs modelAb ⟨1, 2⟩ 4 =
      MoveOperations.leftPosition modelAb ⟨1, 2⟩ ∧
    MoveOperations.leftPositionAtomicSoftTabs modelIndent ⟨1, 3⟩ 4 = ⟨1, 1⟩ ∧
    MoveOperations.leftPositionAtomicSoftTabs modelIndent ⟨1, 3⟩ 4 =
      ⟨(⟨1, 3⟩ : Position).lineNumber,
        modelIndent.atomicPosition (modelIndent.getLineContent 1) 2 4 Direction.Left + 1⟩ := by
  refine ⟨?_, by decide, ?_⟩
  · exact (atomicStep_fallback cfg0 modelAb ⟨1, 2⟩ 1 1 4 4).2.2.2.1 (by decide)
  · exact (atomicStep_fallback cfg0 modelIndent ⟨1, 3⟩ 1 1 4 4).2.2.2.2.2.2.1
      (by decide) (by decide) (by decide)

lemma hasSelection_false_of_isEmpty (s : SingleCursorState)
    (hsel : s.selection.isEmpty = true) : s.hasSelection false = false := by
  unfold SingleCursorState.hasSelection
  simp [hsel]

lemma move_false_isEmpty (s : SingleCursorState) (l c lv : Int) (h : Option Int) :
    ((s.move false l c lv h)).selection.isEmpty = true := by
  unfold SingleCursorState.move
  simp [Selection.isEmpty]

lemma clip_of_valid (m : Model) (ln col : Int)
    (hmin : m.getLineMinColumn ln ≤ col) (hmax : col ≤ m.getLineMaxColumn ln) :
    MoveOperations.clipPositionColumn ⟨ln, col⟩ m = ⟨ln, col⟩ := by
  unfold MoveOperations.clipPositionColumn MoveOperations.clipRange
  dsimp only []
  split_ifs <;> first | rfl | (exfalso; omega)

lemma left_eq_leftPosition (cfg : CursorConfiguration) (m : Model) (p : Position)
    (hatomic : ∀ s i t d, m.atomicPosition s i t d = -1) :
    MoveOperations.left cfg m p = MoveOperations.leftPosition m p := by
  unfold MoveOperations.left MoveOperations.leftPositionAtomicSoftTabs
  dsimp only []
  rw [hatomic]
  split_ifs <;> first | rfl | (exfalso; omega)

lemma right_eq_rightPosition (cfg : CursorConfiguration) (m : Model) (p : Position)
    (hatomic : ∀ s i t d, m.atomicPosition s i t d = -1) :
    MoveOperations.right cfg m p = MoveOperations.rightPosition m p.lineNumber p.column := by
  unfold MoveOperations.right MoveOperations.rightPositionAtomicSoftTabs
  dsimp only []
  rw [hatomic]
  split_ifs <;> first | rfl | (exfalso; omega)

lemma moveRight_noSel (cfg : CursorConfiguration) (m : Model) (cursor : SingleCursorState)
    (ln col : Int)
    (hvs : cfg.virtualSpace = false)
    (hsel : cursor.selection.isEmpty = true)
    (hnorm : ∀ p a, m.normalizePosition p a = p)
    (hatomic : ∀ s i t d, m.atomicPosition s i t d = -1)
    (hpos : cursor.position = ⟨ln, col⟩)
    (hmin : m.getLineMinColumn ln ≤ col) (hmax : col ≤ m.getLineMaxColumn ln) :
    MoveOperations.moveRight cfg m cursor false 1 =
      cursor.move false (MoveOperations.rightPosition m ln col).lineNumber
        (MoveOperations.rightPosition m ln col).column 0 none := by
  unfold MoveOperations.moveRight MoveOperations.moveRightWithoutVirtualSpace
  simp only [hvs, Bool.false_eq_true, if_false, hasSelection_false_of_isEmpty cursor hsel,
    Bool.not_false, Bool.and_true]
  try dsimp only []
  rw [hpos]
  have hd : (Position.mk ln col).delta (1 - 1) = ⟨ln, col⟩ := by
    unfold Position.delta
    dsimp only []
    congr 1
    omega
  rw [hd, clip_of_valid m ln col hmin hmax, hnorm,
    right_eq_rightPosition cfg m ⟨ln, col⟩ hatomic]

lemma moveLeft_noSel (cfg : CursorConfiguration) (m : Model) (cursor : SingleCursorState)
    (ln col : Int)
    (hvs : cfg.virtualSpace = false)
    (hsel : cursor.selection.isEmpty = true)
    (hnorm : ∀ p a, m.normalizePosition p a = p)
    (hatomic : ∀ s i t d, m.atomicPosition s i t d = -1)
    (hpos : cursor.position = ⟨ln, col⟩)
    (hmin : m.getLineMinColumn ln ≤ col) (hmax : col ≤ m.getLineMaxColumn ln) :
    MoveOperations.moveLeft cfg m cursor false 1 =
      cursor.move false (MoveOperations.leftPosition m ⟨ln, col⟩).lineNumber
        (MoveOperations.leftPosition m ⟨ln, col⟩).column 0 none := by
  unfold MoveOperations.moveLeft MoveOperations.moveLeftWithoutVirtualSapce
  simp only [hvs, Bool.false_eq_true, if_false, hasSelection_false_of_isEmpty cursor hsel,
    Bool.not_false, Bool.and_true]
  try dsimp only []
  rw [hpos]
  have hd : (Position.mk ln col).delta (-(1 - 1)) = ⟨ln, col⟩ := by
    unfold Position.delta
    dsimp only []
    congr 1
    omega
  rw [hd, clip_of_valid m ln col hmin hmax, hnorm,
    left_eq_leftPosition cfg m ⟨ln, col⟩ hatomic]

/-- C2 counterexample: with one line ab and the cursor at the absolute buffer
end (1,3), moveRight is a no-op but the subsequent moveLeft steps to (1,2),
so the composition is not the identity on the position there. -/
theorem moveRightLeft_roundtrip_cex :
    cfg0.virtualSpace = false ∧
    (mkCursor 1 3).selection.isEmpty = true ∧
    (mkCursor 1 3).position.lineNumber = modelAb.getLineCount ∧
    (mkCursor 1 3).position.column = modelAb.getLineMaxColumn 1 ∧
    (MoveOperations.moveRight cfg0 modelAb (mkCursor 1 3) false 1).position =
      (mkCursor 1 3).position ∧
    ¬((MoveOperations.moveLeft cfg0 modelAb
        (MoveOperations.moveRight cfg0 modelAb (mkCursor 1 3) false 1) false 1).position =
      (mkCursor 1 3).position) := by
  decide

/-- C2 amended: with no selection, virtual space off, no injected content
(identity normalization), no atomic tab stop and columnCount 1, moveRight
followed by moveLeft is the identity on every valid position except the
absolute buffer end; at the buffer end moveRight alone is a no-op on the
position. -/
theorem moveRightLeft_roundtrip_amended (cfg : CursorConfiguration) (m : Model)
    (cursor : SingleCursorState) (ln col : Int)
    (hvs : cfg.virtualSpace = false)
    (hsel : cursor.selection.isEmpty = true)
    (hnorm : ∀ p a, m.normalizePosition p a = p)
    (hatomic : ∀ s i t d, m.atomicPosition s i t d = -1)
    (hminmax : ∀ l, m.getLineMinColumn l ≤ m.getLineMaxColumn l)
    (hpos : cursor.position = ⟨ln, col⟩)
    (hline1 : 1 ≤ ln)
    (hlineN : ln ≤ m.getLineCount)
    (hcolmin : m.getLineMinColumn ln ≤ col)
    (hcolmax : col ≤ m.getLineMaxColumn ln)
    (hchar : col < m.getLineMaxColumn ln →
      1 ≤ m.nextCharLength (m.getLineContent ln) (col - 1) ∧
      col + m.nextCharLength (m.getLineContent ln) (col - 1) ≤ m.getLineMaxColumn ln ∧
      m.prevCharLength (m.getLineContent ln)
          (col - 1 + m.nextCharLength (m.getLineContent ln) (col - 1)) =
        m.nextCharLength (m.getLineContent ln) (col - 1)) :
    (¬(ln = m.getLineCount ∧ col = m.getLineMaxColumn ln) →
      (MoveOperations.moveLeft cfg m
          (MoveOperations.moveRight cfg m cursor false 1) false 1).position =
        cursor.position) ∧
    ((ln = m.getLineCount ∧ col = m.getLineMaxColumn ln) →
      (MoveOperations.moveRight cfg m cursor false 1).position = cursor.position) := by
  have hR := moveRight_noSel cfg m cursor ln col hvs hsel hnorm hatomic hpos hcolmin hcolmax
  constructor
  · intro hne
    rw [hpos]
    by_cases hlt : col < m.getLineMaxColumn ln
    · obtain ⟨hn1, hn2, hn3⟩ := hchar hlt
      have hr : MoveOperations.rightPosition m ln col =
          ⟨ln, col + m.nextCharLength (m.getLineContent ln) (col - 1)⟩ := by
        unfold MoveOperations.rightPosition
        rw [if_pos hlt]
      rw [hR, hr]
      have hL := moveLeft_noSel cfg m
        (cursor.move false (Position.mk ln (col + m.nextCharLength (m.getLineContent ln) (col - 1))).lineNumber
          (Position.mk ln (col + m.nextCharLength (m.getLineContent ln) (col - 1))).column 0 none)
        ln (col + m.nextCharLength (m.getLineContent ln) (col - 1))
        hvs (move_false_isEmpty _ _ _ _ _) hnorm hatomic (move_position _ _ _ _ _ _)
        (by omega) (by omega)
      rw [hL, move_position]
      have hlp : MoveOperations.leftPosition m
          ⟨ln, col + m.nextCharLength (m.getLineContent ln) (col - 1)⟩ =
          ⟨ln, col + m.nextCharLength (m.getLineContent ln) (col - 1) -
            m.prevCharLength (m.getLineContent ln)
              (col + m.nextCharLength (m.getLineContent ln) (col - 1) - 1)⟩ := by
        unfold MoveOperations.leftPosition Position.delta
        dsimp only []
        rw [if_pos (by omega)]
        congr 1 <;> omega
      rw [hlp]
      dsimp only []
      have harg : col + m.nextCharLength (m.getLineContent ln) (col - 1) - 1 =
          col - 1 + m.nextCharLength (m.getLineContent ln) (col - 1) := by omega
      rw [harg, hn3]
      congr 1
      omega
    · have hcol : col = m.getLineMaxColumn ln := by omega
      have hlnlt : ln < m.getLineCount := by
        rcases lt_or_eq_of_le hlineN with h | h
        · exact h
        · exact absurd ⟨h, hcol⟩ hne
      have hr : MoveOperations.rightPosition m ln col =
          ⟨ln + 1, m.getLineMinColumn (ln + 1)⟩ := by
        unfold MoveOperations.rightPosition
        rw [if_neg (by omega), if_pos hlnlt]
      rw [hR, hr]
      have hL := moveLeft_noSel cfg m
        (cursor.move false (Position.mk (ln + 1) (m.getLineMinColumn (ln + 1))).lineNumber
          (Position.mk (ln + 1) (m.getLineMinColumn (ln + 1))).column 0 none)
        (ln + 1) (m.getLineMinColumn (ln + 1))
        hvs (move_false_isEmpty _ _ _ _ _) hnorm hatomic (move_position _ _ _ _ _ _)
        (le_refl _) (hminmax _)
      rw [hL, move_position]
      have hlp : MoveOperations.leftPosition m ⟨ln + 1, m.getLineMinColumn (ln + 1)⟩ =
          ⟨ln + 1 - 1, m.getLineMaxColumn (ln + 1 - 1)⟩ := by
        unfold MoveOperations.leftPosition
        dsimp only []
        rw [if_neg (by omega), if_pos (by omega)]
      rw [hlp]
      dsimp only []
      have h11 : ln + 1 - 1 = ln := by omega
      rw [h11]
      congr 1
      omega
  · intro hend
    rw [hpos, hR]
    have hr : MoveOperations.rightPosition m ln col = ⟨ln, col⟩ := by
      unfold MoveOperations.rightPosition
      rw [if_neg (by omega), if_neg (by omega)]
    rw [hr, move_position]

/-- Witness for the amended C2 at the concrete model with lines ab and c,
starting inside the first line at (1,2): the round trip restores (1,2). -/
theorem moveRightLeft_roundtrip_witness :
    (MoveOperations.moveLeft cfg0 modelAbC
        (MoveOperations.moveRight cfg0 modelAbC (mkCursor 1 2) false 1) false 1).position =
      (mkCursor 1 2).position ∧
    (MoveOperations.moveLeft cfg0 modelAbC
        (MoveOperations.moveRight cfg0 modelAbC (mkCursor 1 2) false 1) false 1).position =
      ⟨1, 2⟩ := by
  refine ⟨?_, by decide⟩
  exact (moveRightLeft_roundtrip_amended cfg0 modelAbC (mkCursor 1 2) 1 2 rfl (by decide)
    (fun p a => rfl) (fun s i t d => rfl) (mkModel_minmax ["ab", "c"]) rfl (by decide)
    (by decide) (by decide) (by decide) (fun h => by decide)).1 (by decide)

/-- C4 counterexample: with virtual space off, moveDown from (1,9) on a
model whose second line is a lands at (2,2) and returns
leftoverVisibleColumns 7, so the leftover fields are not forced to 0 when
virtual space is disabled. -/
theorem moveDown_leftover_cex :
    cfg0.virtualSpace = false ∧
    (MoveOperations.moveDown cfg0 modelShort (mkCursor 1 9) false 1).leftoverVisibleColumns = 7 ∧
    (MoveOperations.moveDown cfg0 modelShort (mkCursor 1 9) false 1).selectionStartLeftoverVisibleColumns = 7 ∧
    ¬((MoveOperations.moveDown cfg0 modelShort (mkCursor 1 9) false 1).leftoverVisibleColumns = 0) := by
  decide

/-- C4 amended: the horizontal, line-boundary (with sticky off),
buffer-boundary and blank-line motions return leftover fields equal to 0
whenever virtual space is off and the incoming selection-start leftover is 0;
vertical motions and sticky moveToEndOfLine can return non-zero leftovers
even with virtual space off. -/
theorem leftover_zero_nonvertical (cfg : CursorConfiguration) (m : Model)
    (cursor : SingleCursorState) (inSel : Bool) (n : Int)
    (hvs : cfg.virtualSpace = false)
    (hss : cursor.selectionStartLeftoverVisibleColumns = 0) :
    ((MoveOperations.moveLeft cfg m cursor inSel n).leftoverVisibleColumns = 0 ∧
      (MoveOperations.moveLeft cfg m cursor inSel n).selectionStartLeftoverVisibleColumns = 0) ∧
    ((MoveOperations.moveRight cfg m cursor inSel n).leftoverVisibleColumns = 0 ∧
      (MoveOperations.moveRight cfg m cursor inSel n).selectionStartLeftoverVisibleColumns = 0) ∧
    ((MoveOperations.moveToBeginningOfLine cfg m cursor inSel).leftoverVisibleColumns = 0 ∧
      (MoveOperations.moveToBeginningOfLine cfg m cursor inSel).selectionStartLeftoverVisibleColumns = 0) ∧
    ((MoveOperations.moveToEndOfLine cfg m cursor inSel false).leftoverVisibleColumns = 0 ∧
      (MoveOperations.moveToEndOfLine cfg m cursor inSel false).selectionStartLeftoverVisibleColumns = 0) ∧
    ((MoveOperations.moveToBeginningOfBuffer cfg m cursor inSel).leftoverVisibleColumns = 0 ∧
      (MoveOperations.moveToBeginningOfBuffer cfg m cursor inSel).selectionStartLeftoverVisibleColumns = 0) ∧
    ((MoveOperations.moveToEndOfBuffer cfg m cursor inSel).leftoverVisibleColumns = 0 ∧
      (MoveOperations.moveToEndOfBuffer cfg m cursor inSel).selectionStartLeftoverVisibleColumns = 0) ∧
    ((MoveOperations.moveToPrevBlankLine cfg m cursor inSel).leftoverVisibleColumns = 0 ∧
      (MoveOperations.moveToPrevBlankLine cfg m cursor inSel).selectionStartLeftoverVisibleColumns = 0) ∧
    ((MoveOperations.moveToNextBlankLine cfg m cursor inSel).leftoverVisibleColumns = 0 ∧
      (MoveOperations.moveToNextBlankLine cfg m cursor inSel).selectionStartLeftoverVisibleColumns = 0) := by
  unfold MoveOperations.moveLeft MoveOperations.moveRight
    MoveOperations.moveLeftWithoutVirtualSapce MoveOperations.moveRightWithoutVirtualSpace
    MoveOperations.moveToBeginningOfLine MoveOperations.moveToEndOfLine
    MoveOperations.moveToBeginningOfBuffer MoveOperations.moveToEndOfBuffer
    MoveOperations.moveToPrevBlankLine MoveOperations.moveToNextBlankLine
  simp only [hvs, Bool.false_eq_true, if_false]
  try dsimp only []
  refine ⟨?_, ?_, ?_, ?_, ?_, ?_, ?_, ?_⟩ <;> (repeat' split) <;>
    simp [move_leftover, move_selStartLeftover, hss]

/-- Witness for the amended C4: with virtual space off, moveLeft on a
concrete model returns both leftover fields equal to 0. -/
theorem leftover_zero_nonvertical_witness :
    (MoveOperations.moveLeft cfg0 modelAb (mkCursor 1 1) false 1).leftoverVisibleColumns = 0 ∧
    (MoveOperations.moveLeft cfg0 modelAb (mkCursor 1 1) false 1).selectionStartLeftoverVisibleColumns = 0 := by
  exact (leftover_zero_nonvertical cfg0 modelAb (mkCursor 1 1) false 1 rfl rfl).1

/-- C7: evaluation of the edge-detection slip. On the one-line model a, the
cursor (1,2) is the absolute buffer end (lineCount 1, maximum column 2), so
by the claim a down motion past the last line must return a null columnHint
and leftover 0; the code instead returns columnHint 1 because it computes
wasOnFirstPosition and wasOnLastPosition after lineNumber has already been
overwritten with the target line. -/
theorem vertical_edge_hint_bug :
    modelA.getLineCount = 1 ∧
    modelA.getLineMaxColumn 1 = 2 ∧
    MoveOperations.down cfg0 modelA 1 2 0 none 1 true = ⟨1, 2, 0, some 1⟩ ∧
    ¬((MoveOperations.down cfg0 modelA 1 2 0 none 1 true).columnHint = none) := by
  decide

/-- C6: in moveLeft with virtual space on and no selection collapse, when the
pre-clip column exceeds the clipped (normalized) column by more than one the
normalized position is kept and the excess minus one becomes the new
leftover; when there is no overshoot the operation falls through to a real
character step, and at the line's minimum column it keeps the position with
leftover 0. -/
theorem moveLeftVS_overshoot (cfg : CursorConfiguration) (m : Model)
    (cursor : SingleCursorState) (inSel : Bool) (n : Int)
    (hvs : cfg.virtualSpace = true)
    (hnosel : (cursor.hasSelection true && !inSel) = false)
    (hnorm : m.normalizePosition (MoveOperations.clipPositionColumn (leftPreClip cursor n) m)
        PositionAffinity.Left =
      MoveOperations.clipPositionColumn (leftPreClip cursor n) m) :
    ((leftPreClip cursor n).column -
        (MoveOperations.clipPositionColumn (leftPreClip cursor n) m).column > 1 →
      (MoveOperations.moveLeft cfg m cursor inSel n).position =
        MoveOperations.clipPositionColumn (leftPreClip cursor n) m ∧
      (MoveOperations.moveLeft cfg m cursor inSel n).leftoverVisibleColumns =
        (leftPreClip cursor n).column -
          (MoveOperations.clipPositionColumn (leftPreClip cursor n) m).column - 1) ∧
    ((leftPreClip cursor n).column ≤
        (MoveOperations.clipPositionColumn (leftPreClip cursor n) m).column →
      (MoveOperations.clipPositionColumn (leftPreClip cursor n) m).column >
        m.getLineMinColumn (MoveOperations.clipPositionColumn (leftPreClip cursor n) m).lineNumber →
      (MoveOperations.moveLeft cfg m cursor inSel n).position =
        MoveOperations.left cfg m (MoveOperations.clipPositionColumn (leftPreClip cursor n) m) ∧
      (MoveOperations.moveLeft cfg m cursor inSel n).leftoverVisibleColumns = 0) ∧
    ((leftPreClip cursor n).column ≤
        (MoveOperations.clipPositionColumn (leftPreClip cursor n) m).column →
      (MoveOperations.clipPositionColumn (leftPreClip cursor n) m).column ≤
        m.getLineMinColumn (MoveOperations.clipPositionColumn (leftPreClip cursor n) m).lineNumber →
      (MoveOperations.moveLeft cfg m cursor inSel n).position =
        MoveOperations.clipPositionColumn (leftPreClip cursor n) m ∧
      (MoveOperations.moveLeft cfg m cursor inSel n).leftoverVisibleColumns = 0) := by
  unfold MoveOperations.moveLeft MoveOperations.moveLeftWithVirtualSpace
  unfold leftPreClip at hnorm ⊢
  simp only [hvs, if_true, hnosel, Bool.false_eq_true, if_false]
  try dsimp only []
  rw [hnorm]
  refine ⟨?_, ?_, ?_⟩ <;> intro h1 <;> try intro h2
  · rw [if_pos (by omega)]
    refine ⟨?_, ?_⟩
    · rw [move_position]
    · rw [move_leftover]
      omega
  · rw [if_neg (by omega), if_pos (by omega)]
    refine ⟨?_, ?_⟩
    · rw [move_position]
    · rw [move_leftover]
      omega
  · rw [if_neg (by omega), if_neg (by omega)]
    refine ⟨?_, ?_⟩
    · rw [move_position]
    · rw [move_leftover]
      omega

/-- Witness for C6 at the concrete virtual-space cursor 5 columns past the
end of line ab: moveLeft keeps the clipped position (1,3) and records
leftover 4. -/
theorem moveLeftVS_overshoot_witness :
    (MoveOperations.moveLeft cfgVS modelAb cursorVirtual false 1).position = ⟨1, 3⟩ ∧
    (MoveOperations.moveLeft cfgVS modelAb cursorVirtual false 1).leftoverVisibleColumns = 4 := by
  have h := (moveLeftVS_overshoot cfgVS modelAb cursorVirtual false 1 rfl (by decide) rfl).1
    (by decide)
  refine ⟨?_, ?_⟩
  · rw [h.1]
    decide
  · rw [h.2]
    decide

lemma moveDownLoopAux_spec (cfg : CursorConfiguration) (m : Model)
    (ln col lv : Int) (hint : Option Int) (cnt : Int) :
    ∀ fuel i, fuel + i = 10 →
      ∃ k, i ≤ k ∧ k ≤ 10 ∧
        MoveOperations.moveDownLoopAux cfg m ln col lv hint cnt fuel i =
          MoveOperations.moveDownAttempt cfg m ln col lv hint cnt k ∧
        (∀ j, i ≤ j → j < k →
          MoveOperations.moveDownStops cfg m ln col lv hint cnt j = false) ∧
        (MoveOperations.moveDownStops cfg m ln col lv hint cnt k = true ∨ k = 10 ∨
          ¬(ln + (k : Int) + 1 < m.getLineCount)) := by
  intro fuel
  induction fuel with
  | zero =>
      intro i hi
      refine ⟨i, le_refl i, by omega, rfl, fun j hj1 hj2 => by omega, ?_⟩
      right
      left
      omega
  | succ fuel ih =>
      intro i hi
      by_cases hstop : MoveOperations.moveDownStops cfg m ln col lv hint cnt i = true
      · refine ⟨i, le_refl i, by omega, ?_, fun j hj1 hj2 => by omega, Or.inl hstop⟩
        unfold MoveOperations.moveDownLoopAux
        dsimp only []
        rw [if_pos hstop]
      · by_cases hguard : i < 10 ∧ ln + (i : Int) + 1 < m.getLineCount
        · obtain ⟨k, hk1, hk2, hk3, hk4, hk5⟩ := ih (i + 1) (by omega)
          refine ⟨k, by omega, hk2, ?_, ?_, hk5⟩
          · unfold MoveOperations.moveDownLoopAux
            dsimp only []
            rw [if_neg hstop, if_pos hguard]
            exact hk3
          · intro j hj1 hj2
            by_cases hj : j = i
            · subst hj
              simpa using hstop
            · exact hk4 j (by omega) hj2
        · refine ⟨i, le_refl i, by omega, ?_, fun j hj1 hj2 => by omega, ?_⟩
          · unfold MoveOperations.moveDownLoopAux
            dsimp only []
            rw [if_neg hstop, if_neg hguard]
          · right
            right
            intro hb
            exact hguard ⟨by omega, hb⟩

/-- C3: moveDown makes a first attempt and at most 10 retries, each starting
one line further down; it stops at the first attempt whose normalization
(affinity None) reports a line strictly past the starting line, or else when
the retry cap or the line-count bound of the guard is hit, and the result of
the last attempt made is always the one returned. -/
theorem moveDown_retry_bound (cfg : CursorConfiguration) (m : Model)
    (cursor : SingleCursorState) (inSel : Bool) (cnt : Int) :
    ∃ k : Nat, k ≤ 10 ∧
      MoveOperations.moveDown cfg m cursor inSel cnt =
        cursor.move inSel
          (MoveOperations.moveDownAttempt cfg m
            (MoveOperations.moveDownStart cfg cursor inSel).1.lineNumber
            (MoveOperations.moveDownStart cfg cursor inSel).1.column
            (MoveOperations.moveDownStart cfg cursor inSel).1.leftoverVisibleColumns
            (MoveOperations.moveDownStart cfg cursor inSel).2 cnt k).lineNumber
          (MoveOperations.moveDownAttempt cfg m
            (MoveOperations.moveDownStart cfg cursor inSel).1.lineNumber
            (MoveOperations.moveDownStart cfg cursor inSel).1.column
            (MoveOperations.moveDownStart cfg cursor inSel).1.leftoverVisibleColumns
            (MoveOperations.moveDownStart cfg cursor inSel).2 cnt k).column
          (MoveOperations.moveDownAttempt cfg m
            (MoveOperations.moveDownStart cfg cursor inSel).1.lineNumber
            (MoveOperations.moveDownStart cfg cursor inSel).1.column
            (MoveOperations.moveDownStart cfg cursor inSel).1.leftoverVisibleColumns
            (MoveOperations.moveDownStart cfg cursor inSel).2 cnt k).leftoverVisibleColumns
          (MoveOperations.moveDownAttempt cfg m
            (MoveOperations.moveDownStart cfg cursor inSel).1.lineNumber
            (MoveOperations.moveDownStart cfg cursor inSel).1.column
            (MoveOperations.moveDownStart cfg cursor inSel).1.leftoverVisibleColumns
            (MoveOperations.moveDownStart cfg cursor inSel).2 cnt k).columnHint ∧
      (∀ j, j < k →
        MoveOperations.moveDownStops cfg m
          (MoveOperations.moveDownStart cfg cursor inSel).1.lineNumber
          (MoveOperations.moveDownStart cfg cursor inSel).1.column
          (MoveOperations.moveDownStart cfg cursor inSel).1.leftoverVisibleColumns
          (MoveOperations.moveDownStart cfg cursor inSel).2 cnt j = false) ∧
      (MoveOperations.moveDownStops cfg m
          (MoveOperations.moveDownStart cfg cursor inSel).1.lineNumber
          (MoveOperations.moveDownStart cfg cursor inSel).1.column
          (MoveOperations.moveDownStart cfg cursor inSel).1.leftoverVisibleColumns
          (MoveOperations.moveDownStart cfg cursor inSel).2 cnt k = true ∨
        k = 10 ∨
        ¬((MoveOperations.moveDownStart cfg cursor inSel).1.lineNumber + (k : Int) + 1 <
            m.getLineCount)) := by
  obtain ⟨k, hk1, hk2, hk3, hk4, hk5⟩ := moveDownLoopAux_spec cfg m
    (MoveOperations.moveDownStart cfg cursor inSel).1.lineNumber
    (MoveOperations.moveDownStart cfg cursor inSel).1.column
    (MoveOperations.moveDownStart cfg cursor inSel).1.leftoverVisibleColumns
    (MoveOperations.moveDownStart cfg cursor inSel).2 cnt 10 0 rfl
  refine ⟨k, hk2, ?_, fun j hj => hk4 j (Nat.zero_le j) hj, hk5⟩
  unfold MoveOperations.moveDown
  dsimp only []
  rw [hk3]

/-- Witness for C3 at a concrete two-line model: the retry loop stops within
the bound. -/
theorem moveDown_retry_bound_witness :
    ∃ k : Nat, k ≤ 10 ∧
      MoveOperations.moveDown cfg0 modelShort (mkCursor 1 1) false 1 =
        (mkCursor 1 1).move false
          (MoveOperations.moveDownAttempt cfg0 modelShort
            (MoveOperations.moveDownStart cfg0 (mkCursor 1 1) false).1.lineNumber
            (MoveOperations.moveDownStart cfg0 (mkCursor 1 1) false).1.column
            (MoveOperations.moveDownStart cfg0 (mkCursor 1 1) false).1.leftoverVisibleColumns
            (MoveOperations.moveDownStart cfg0 (mkCursor 1 1) false).2 1 k).lineNumber
          (MoveOperations.moveDownAttempt cfg0 modelShort
            (MoveOperations.moveDownStart cfg0 (mkCursor 1 1) false).1.lineNumber
            (MoveOperations.moveDownStart cfg0 (mkCursor 1 1) false).1.column
            (MoveOperations.moveDownStart cfg0 (mkCursor 1 1) false).1.leftoverVisibleColumns
            (MoveOperations.moveDownStart cfg0 (mkCursor 1 1) false).2 1 k).column
          (MoveOperations.moveDownAttempt cfg0 modelShort
            (MoveOperations.moveDownStart cfg0 (mkCursor 1 1) false).1.lineNumber
            (MoveOperations.moveDownStart cfg0 (mkCursor 1 1) false).1.column
            (MoveOperations.moveDownStart cfg0 (mkCursor 1 1) false).1.leftoverVisibleColumns
            (MoveOperations.moveDownStart cfg0 (mkCursor 1 1) false).2 1 k).leftoverVisibleColumns
          (MoveOperations.moveDownAttempt cfg0 modelShort
            (MoveOperations.moveDownStart cfg0 (mkCursor 1 1) false).1.lineNumber
            (MoveOperations.moveDownStart cfg0 (mkCursor 1 1) false).1.column
            (MoveOperations.moveDownStart cfg0 (mkCursor 1 1) false).1.leftoverVisibleColumns
            (MoveOperations.moveDownStart cfg0 (mkCursor 1 1) false).2 1 k).columnHint ∧
      (∀ j, j < k →
        MoveOperations.moveDownStops cfg0 modelShort
          (MoveOperations.moveDownStart cfg0 (mkCursor 1 1) false).1.lineNumber
          (MoveOperations.moveDownStart cfg0 (mkCursor 1 1) false).1.column
          (MoveOperations.moveDownStart cfg0 (mkCursor 1 1) false).1.leftoverVisibleColumns
          (MoveOperations.moveDownStart cfg0 (mkCursor 1 1) false).2 1 j = false) ∧
      (MoveOperations.moveDownStops cfg0 modelShort
          (MoveOperations.moveDownStart cfg0 (mkCursor 1 1) false).1.lineNumber
          (MoveOperations.moveDownStart cfg0 (mkCursor 1 1) false).1.column
          (MoveOperations.moveDownStart cfg0 (mkCursor 1 1) false).1.leftoverVisibleColumns
          (MoveOperations.moveDownStart cfg0 (mkCursor 1 1) false).2 1 k = true ∨
        k = 10 ∨
        ¬((MoveOperations.moveDownStart cfg0 (mkCursor 1 1) false).1.lineNumber + (k : Int) + 1 <
            modelShort.getLineCount)) :=
  moveDown_retry_bound cfg0 modelShort (mkCursor 1 1) false 1

lemma skipBlankUpAux_spec (m : Model) :
    ∀ (fuel : Nat) (ln : Int), 1 ≤ ln → ln ≤ 1 + (fuel : Int) →
      1 ≤ MoveOperations.skipBlankUpAux m fuel ln ∧
      MoveOperations.skipBlankUpAux m fuel ln ≤ ln ∧
      (MoveOperations.skipBlankUpAux m fuel ln = 1 ∨
        MoveOperations.isBlankLine m (MoveOperations.skipBlankUpAux m fuel ln) = false) ∧
      ∀ j, MoveOperations.skipBlankUpAux m fuel ln < j → j ≤ ln →
        MoveOperations.isBlankLine m j = true := by
  intro fuel
  induction fuel with
  | zero =>
      intro ln h1 h2
      unfold MoveOperations.skipBlankUpAux
      refine ⟨h1, le_refl ln, Or.inl (by omega), fun j hj1 hj2 => by omega⟩
  | succ fuel ih =>
      intro ln h1 h2
      unfold MoveOperations.skipBlankUpAux
      by_cases hc : ln > 1 ∧ MoveOperations.isBlankLine m ln = true
      · rw [if_pos hc]
        obtain ⟨ih1, ih2, ih3, ih4⟩ := ih (ln - 1) (by omega) (by
          push_cast
          push_cast at h2
          omega)
        refine ⟨ih1, by omega, ih3, ?_⟩
        intro j hj1 hj2
        by_cases hj : j ≤ ln - 1
        · exact ih4 j hj1 hj
        · have : j = ln := by omega
          subst this
          exact hc.2
      · rw [if_neg hc]
        refine ⟨h1, le_refl ln, ?_, fun j hj1 hj2 => by omega⟩
        by_cases hb : MoveOperations.isBlankLine m ln = true
        · left
          by_contra hne
          exact hc ⟨by omega, hb⟩
        · right
          simpa using hb

lemma skipNonBlankUpAux_spec (m : Model) :
    ∀ (fuel : Nat) (ln : Int), 1 ≤ ln → ln ≤ 1 + (fuel : Int) →
      1 ≤ MoveOperations.skipNonBlankUpAux m fuel ln ∧
      MoveOperations.skipNonBlankUpAux m fuel ln ≤ ln ∧
      (MoveOperations.skipNonBlankUpAux m fuel ln = 1 ∨
        MoveOperations.isBlankLine m (MoveOperations.skipNonBlankUpAux m fuel ln) = true) ∧
      ∀ j, MoveOperations.skipNonBlankUpAux m fuel ln < j → j ≤ ln →
        MoveOperations.isBlankLine m j = false := by
  intro fuel
  induction fuel with
  | zero =>
      intro ln h1 h2
      unfold MoveOperations.skipNonBlankUpAux
      refine ⟨h1, le_refl ln, Or.inl (by omega), fun j hj1 hj2 => by omega⟩
  | succ fuel ih =>
      intro ln h1 h2
      unfold MoveOperations.skipNonBlankUpAux
      by_cases hc : ln > 1 ∧ ¬MoveOperations.isBlankLine m ln = true
      · rw [if_pos hc]
        obtain ⟨ih1, ih2, ih3, ih4⟩ := ih (ln - 1) (by omega) (by
          push_cast
          push_cast at h2
          omega)
        refine ⟨ih1, by omega, ih3, ?_⟩
        intro j hj1 hj2
        by_cases hj : j ≤ ln - 1
        · exact ih4 j hj1 hj
        · have : j = ln := by omega
          subst this
          simpa using hc.2
      · rw [if_neg hc]
        refine ⟨h1, le_refl ln, ?_, fun j hj1 hj2 => by omega⟩
        by_cases hb : MoveOperations.isBlankLine m ln = true
        · right
          exact hb
        · left
          by_contra hne
          exact hc ⟨by omega, hb⟩

lemma skipBlankDownAux_spec (m : Model) :
    ∀ (fuel : Nat) (ln : Int), ln ≤ m.getLineCount → m.getLineCount ≤ ln + (fuel : Int) →
      ln ≤ MoveOperations.skipBlankDownAux m fuel ln ∧
      MoveOperations.skipBlankDownAux m fuel ln ≤ m.getLineCount ∧
      (MoveOperations.skipBlankDownAux m fuel ln = m.getLineCount ∨
        MoveOperations.isBlankLine m (MoveOperations.skipBlankDownAux m fuel ln) = false) ∧
      ∀ j, ln ≤ j → j < MoveOperations.skipBlankDownAux m fuel ln →
        MoveOperations.isBlankLine m j = true := by
  intro fuel
  induction fuel with
  | zero =>
      intro ln h1 h2
      unfold MoveOperations.skipBlankDownAux
      refine ⟨le_refl ln, h1, Or.inl (by omega), fun j hj1 hj2 => by omega⟩
  | succ fuel ih =>
      intro ln h1 h2
      unfold MoveOperations.skipBlankDownAux
      by_cases hc : ln < m.getLineCount ∧ MoveOperations.isBlankLine m ln = true
      · rw [if_pos hc]
        obtain ⟨ih1, ih2, ih3, ih4⟩ := ih (ln + 1) (by omega) (by
          push_cast
          push_cast at h2
          omega)
        refine ⟨by omega, ih2, ih3, ?_⟩
        intro j hj1 hj2
        by_cases hj : ln + 1 ≤ j
        · exact ih4 j hj hj2
        · have : j = ln := by omega
          subst this
          exact hc.2
      · rw [if_neg hc]
        refine ⟨le_refl ln, h1, ?_, fun j hj1 hj2 => by omega⟩
        by_cases hb : MoveOperations.isBlankLine m ln = true
        · left
          by_contra hne
          exact hc ⟨by omega, hb⟩
        · right
          simpa using hb

lemma skipNonBlankDownAux_spec (m : Model) :
    ∀ (fuel : Nat) (ln : Int), ln ≤ m.getLineCount → m.getLineCount ≤ ln + (fuel : Int) →
      ln ≤ MoveOperations.skipNonBlankDownAux m fuel ln ∧
      MoveOperations.skipNonBlankDownAux m fuel ln ≤ m.getLineCount ∧
      (MoveOperations.skipNonBlankDownAux m fuel ln = m.getLineCount ∨
        MoveOperations.isBlankLine m (MoveOperations.skipNonBlankDownAux m fuel ln) = true) ∧
      ∀ j, ln ≤ j → j < MoveOperations.skipNonBlankDownAux m fuel ln →
        MoveOperations.isBlankLine m j = false := by
  intro fuel
  induction fuel with
  | zero =>
      intro ln h1 h2
      unfold MoveOperations.skipNonBlankDownAux
      refine ⟨le_refl ln, h1, Or.inl (by omega), fun j hj1 hj2 => by omega⟩
  | succ fuel ih =>
      intro ln h1 h2
      unfold MoveOperations.skipNonBlankDownAux
      by_cases hc : ln < m.getLineCount ∧ ¬MoveOperations.isBlankLine m ln = true
      · rw [if_pos hc]
        obtain ⟨ih1, ih2, ih3, ih4⟩ := ih (ln + 1) (by omega) (by
          push_cast
          push_cast at h2
          omega)
        refine ⟨by omega, ih2, ih3, ?_⟩
        intro j hj1 hj2
        by_cases hj : ln + 1 ≤ j
        · exact ih4 j hj hj2
        · have : j = ln := by omega
          subst this
          simpa using hc.2
      · rw [if_neg hc]
        refine ⟨le_refl ln, h1, ?_, fun j hj1 hj2 => by omega⟩
        by_cases hb : MoveOperations.isBlankLine m ln = true
        · right
          exact hb
        · left
          by_contra hne
          exact hc ⟨by omega, hb⟩

/-- C9: moveToPrevBlankLine and moveToNextBlankLine first skip the run of
blank lines containing the cursor's line, then skip the following run of
non-blank lines, stopping at the first blank line found or at the buffer
edge (line 1 or the last line); blankness is first-non-whitespace column 0,
the resulting column is the found line's minimum column, and on the content
a, blank, b, c, blank the next-blank motion from line 3 lands on line 5 and
the previous-blank motion lands on line 2. -/
theorem blankLine_navigation (cfg : CursorConfiguration) (m : Model)
    (cursor : SingleCursorState) (inSel : Bool)
    (h1 : 1 ≤ cursor.position.lineNumber)
    (h2 : cursor.position.lineNumber ≤ m.getLineCount) :
    ((MoveOperations.moveToPrevBlankLine cfg m cursor inSel).position =
      ⟨MoveOperations.skipNonBlankUp m (MoveOperations.skipBlankUp m cursor.position.lineNumber),
        m.getLineMinColumn
          (MoveOperations.skipNonBlankUp m
            (MoveOperations.skipBlankUp m cursor.position.lineNumber))⟩) ∧
    (1 ≤ MoveOperations.skipNonBlankUp m (MoveOperations.skipBlankUp m cursor.position.lineNumber) ∧
      MoveOperations.skipNonBlankUp m (MoveOperations.skipBlankUp m cursor.position.lineNumber) ≤
        MoveOperations.skipBlankUp m cursor.position.lineNumber ∧
      MoveOperations.skipBlankUp m cursor.position.lineNumber ≤ cursor.position.lineNumber) ∧
    (MoveOperations.skipBlankUp m cursor.position.lineNumber = 1 ∨
      MoveOperations.isBlankLine m (MoveOperations.skipBlankUp m cursor.position.lineNumber) = false) ∧
    (∀ j, MoveOperations.skipBlankUp m cursor.position.lineNumber < j →
      j ≤ cursor.position.lineNumber → MoveOperations.isBlankLine m j = true) ∧
    (MoveOperations.skipNonBlankUp m (MoveOperations.skipBlankUp m cursor.position.lineNumber) = 1 ∨
      MoveOperations.isBlankLine m
        (MoveOperations.skipNonBlankUp m
          (MoveOperations.skipBlankUp m cursor.position.lineNumber)) = true) ∧
    (∀ j,
      MoveOperations.skipNonBlankUp m (MoveOperations.skipBlankUp m cursor.position.lineNumber) < j →
      j ≤ MoveOperations.skipBlankUp m cursor.position.lineNumber →
      MoveOperations.isBlankLine m j = false) ∧
    ((MoveOperations.moveToNextBlankLine cfg m cursor inSel).position =
      ⟨MoveOperations.skipNonBlankDown m (MoveOperations.skipBlankDown m cursor.position.lineNumber),
        m.getLineMinColumn
          (MoveOperations.skipNonBlankDown m
            (MoveOperations.skipBlankDown m cursor.position.lineNumber))⟩) ∧
    (cursor.position.lineNumber ≤ MoveOperations.skipBlankDown m cursor.position.lineNumber ∧
      MoveOperations.skipBlankDown m cursor.position.lineNumber ≤
        MoveOperations.skipNonBlankDown m (MoveOperations.skipBlankDown m cursor.position.lineNumber) ∧
      MoveOperations.skipNonBlankDown m (MoveOperations.skipBlankDown m cursor.position.lineNumber) ≤
        m.getLineCount) ∧
    (MoveOperations.skipBlankDown m cursor.position.lineNumber = m.getLineCount ∨
      MoveOperations.isBlankLine m (MoveOperations.skipBlankDown m cursor.position.lineNumber) = false) ∧
    (∀ j, cursor.position.lineNumber ≤ j →
      j < MoveOperations.skipBlankDown m cursor.position.lineNumber →
      MoveOperations.isBlankLine m j = true) ∧
    (MoveOperations.skipNonBlankDown m (MoveOperations.skipBlankDown m cursor.position.lineNumber) =
        m.getLineCount ∨
      MoveOperations.isBlankLine m
        (MoveOperations.skipNonBlankDown m
          (MoveOperations.skipBlankDown m cursor.position.lineNumber)) = true) ∧
    (∀ j, MoveOperations.skipBlankDown m cursor.position.lineNumber ≤ j →
      j < MoveOperations.skipNonBlankDown m (MoveOperations.skipBlankDown m cursor.position.lineNumber) →
      MoveOperations.isBlankLine m j = false) ∧
    (MoveOperations.moveToNextBlankLine cfg0 modelBlank (mkCursor 3 1) false).position.lineNumber = 5 ∧
    (MoveOperations.moveToPrevBlankLine cfg0 modelBlank (mkCursor 3 1) false).position.lineNumber = 2 := by
  obtain ⟨hu1, hu2, hu3, hu4⟩ := skipBlankUpAux_spec m
    (cursor.position.lineNumber - 1).toNat cursor.position.lineNumber h1 (by omega)
  have hbu1 : 1 ≤ MoveOperations.skipBlankUp m cursor.position.lineNumber := hu1
  obtain ⟨hv1, hv2, hv3, hv4⟩ := skipNonBlankUpAux_spec m
    (MoveOperations.skipBlankUp m cursor.position.lineNumber - 1).toNat
    (MoveOperations.skipBlankUp m cursor.position.lineNumber) hbu1 (by omega)
  obtain ⟨hd1, hd2, hd3, hd4⟩ := skipBlankDownAux_spec m
    (m.getLineCount - cursor.position.lineNumber).toNat cursor.position.lineNumber h2 (by omega)
  have hbd2 : MoveOperations.skipBlankDown m cursor.position.lineNumber ≤ m.getLineCount := hd2
  obtain ⟨he1, he2, he3, he4⟩ := skipNonBlankDownAux_spec m
    (m.getLineCount - MoveOperations.skipBlankDown m cursor.position.lineNumber).toNat
    (MoveOperations.skipBlankDown m cursor.position.lineNumber) hbd2 (by omega)
  refine ⟨?_, ⟨hv1, hv2, hu2⟩, hu3, hu4, hv3, hv4, ?_, ⟨hd1, he1, he2⟩, hd3, hd4, he3, he4,
    by decide, by decide⟩
  · unfold MoveOperations.moveToPrevBlankLine
    dsimp only []
    rw [move_position]
  · unfold MoveOperations.moveToNextBlankLine
    dsimp only []
    rw [move_position]

/-- Witness for C9 at the spec's example content, starting at line 3. -/
theorem blankLine_navigation_witness :
    (MoveOperations.moveToPrevBlankLine cfg0 modelBlank (mkCursor 3 1) false).position =
      ⟨MoveOperations.skipNonBlankUp modelBlank (MoveOperations.skipBlankUp modelBlank 3),
        modelBlank.getLineMinColumn
          (MoveOperations.skipNonBlankUp modelBlank (MoveOperations.skipBlankUp modelBlank 3))⟩ ∧
    (MoveOperations.moveToPrevBlankLine cfg0 modelBlank (mkCursor 3 1) false).position = ⟨2, 1⟩ ∧
    (MoveOperations.moveToNextBlankLine cfg0 modelBlank (mkCursor 3 1) false).position = ⟨5, 1⟩ := by
  have h := blankLine_navigation cfg0 modelBlank (mkCursor 3 1) false (by decide) (by decide)
  exact ⟨h.1, by decide, by decide⟩

end VSCursor
